import Mathlib

/-!
Shallow embedding of the wallet/network/verification workflow of the
Solidity-IDE repository, together with theorems settling the frozen claims.

Sources embedded:
- src/src/utils/networks.ts              (network registry, explorer lookups)
- src/src/utils/contractVerification.ts  (verify / status check / polling, retry loop)
- src/src/hooks/useContract.ts           (deployed-contract registry add / remove)
- src/src/hooks/useWallet.ts             (connection state machine)
- src/unnamed/part_012                   (contractDeployment: connectWallet / switchNetwork / addNetwork)
-/

namespace SolidityIDE

/-- Native currency metadata of a network (src/src/utils/networks.ts, `Network.nativeCurrency`). -/
structure NativeCurrency where
  name : String
  symbol : String
  decimals : Nat
deriving DecidableEq, Repr

/-- Network descriptor (src/src/types/index.ts `Network`, values from src/src/utils/networks.ts). -/
structure Network where
  id : String
  name : String
  chainId : Nat
  rpcUrl : String
  blockExplorer : String
  blockExplorerApi : String
  nativeCurrency : NativeCurrency
deriving DecidableEq, Repr

/-- Build-time environment: `import.meta.env.VITE_QUICKNODE_URL`,
`import.meta.env.VITE_ETHERSCAN_API_KEY` (each possibly absent), and the
`LOCAL_NODE_URL` constant imported from localNode. -/
structure Env where
  quicknodeUrl : Option String
  etherscanApiKey : Option String
  localNodeUrl : String
deriving DecidableEq, Repr

/-- Models `const QUICKNODE_URL = import.meta.env.VITE_QUICKNODE_URL || ''`
(a missing variable is the empty string). -/
def QUICKNODE_URL (env : Env) : String :=
  env.quicknodeUrl.getD ""

/-- Models `const ETHERSCAN_API_KEY = import.meta.env.VITE_ETHERSCAN_API_KEY || ''`. -/
def ETHERSCAN_API_KEY (env : Env) : String :=
  env.etherscanApiKey.getD ""

/-- The static `networks` record of src/src/utils/networks.ts, in insertion order
(the order `Object.values` enumerates). -/
def networks (env : Env) : List Network :=
  [ ⟨"hardhat", "Hardhat Local", 31337, env.localNodeUrl, "", "", ⟨"Ethereum", "ETH", 18⟩⟩,
    ⟨"localhost", "Localhost", 1337, env.localNodeUrl, "", "", ⟨"Ethereum", "ETH", 18⟩⟩,
    ⟨"ethereum", "Ethereum Mainnet", 1, QUICKNODE_URL env,
      "https://etherscan.io", "https://api.etherscan.io/api", ⟨"Ethereum", "ETH", 18⟩⟩,
    ⟨"sepolia", "Ethereum Sepolia", 11155111, QUICKNODE_URL env,
      "https://sepolia.etherscan.io", "https://api-sepolia.etherscan.io/api", ⟨"Ethereum", "ETH", 18⟩⟩,
    ⟨"base", "Base Mainnet", 8453, QUICKNODE_URL env,
      "https://basescan.org", "https://api.basescan.org/api", ⟨"Ethereum", "ETH", 18⟩⟩,
    ⟨"baseSepolia", "Base Sepolia", 84532, QUICKNODE_URL env,
      "https://sepolia.basescan.org", "https://api-sepolia.basescan.org/api", ⟨"Ethereum", "ETH", 18⟩⟩,
    ⟨"celo", "Celo Mainnet", 42220, QUICKNODE_URL env,
      "https://celoscan.io", "https://api.celoscan.io/api", ⟨"Celo", "CELO", 18⟩⟩,
    ⟨"alfajores", "Celo Alfajores", 44787, QUICKNODE_URL env,
      "https://alfajores.celoscan.io", "https://api-alfajores.celoscan.io/api", ⟨"Celo", "CELO", 18⟩⟩ ]

/-- Models `getExplorerApiUrl(chainId)`: find the network by chain id and return
`network?.blockExplorerApi || ''`. -/
def getExplorerApiUrl (env : Env) (chainId : Nat) : String :=
  (((networks env).find? (fun n => n.chainId == chainId)).map (fun n => n.blockExplorerApi)).getD ""

/-- Models `getExplorerApiKey()`: `return ETHERSCAN_API_KEY || ''`. -/
def getExplorerApiKey (env : Env) : String :=
  if ETHERSCAN_API_KEY env = "" then "" else ETHERSCAN_API_KEY env

/-- Models `getExplorerUrl(chainId)`: `network?.blockExplorer || ''`. -/
def getExplorerUrl (env : Env) (chainId : Nat) : String :=
  (((networks env).find? (fun n => n.chainId == chainId)).map (fun n => n.blockExplorer)).getD ""

/-- Models `getNetworkByChainId(chainId)`. -/
def getNetworkByChainId (env : Env) (chainId : Nat) : Option Network :=
  (networks env).find? (fun n => n.chainId == chainId)

/-- JavaScript string-or-default: `s || fallback` (the empty string is falsy). -/
def orDefault (s fallback : String) : String :=
  if s = "" then fallback else s

/-! Verification orchestrator (src/src/utils/contractVerification.ts). -/

/-- Ticket status enum of `VerificationResult.status`. -/
inductive VStatus where
  | pending
  | success
  | failed
deriving DecidableEq, Repr

/-- The `VerificationResult` interface. -/
structure VerificationResult where
  guid : String
  status : VStatus
  message : String
  explorerUrl : Option String
deriving DecidableEq, Repr

/-- `RETRY_CONFIG.maxRetries`. -/
def RETRY_maxRetries : Nat := 5

/-- `RETRY_CONFIG.baseDelay` in milliseconds. -/
def RETRY_baseDelay : Nat := 1000

/-- `RETRY_CONFIG.maxDelay` in milliseconds. -/
def RETRY_maxDelay : Nat := 30000

/-- Models `getRetryDelay(attempt) = min(baseDelay * 2^attempt, maxDelay)`. -/
def getRetryDelay (attempt : Nat) : Nat :=
  min (RETRY_baseDelay * 2 ^ attempt) RETRY_maxDelay

/-- Outcome of one HTTP attempt against the explorer API, as the code can
observe it: a delivered response body `{status, result}`, an axios error that
carries an HTTP response (its status code, optional `data.result` body field,
and `error.message`), or a response-less failure (network error / timeout). -/
inductive AttemptOutcome where
  | ok (status : String) (result : String)
  | httpErr (code : Nat) (dataResult : Option String) (message : String)
  | netErr (message : String)
deriving DecidableEq, Repr

/-- A run of `verifyContract` / `checkVerificationStatus` either throws an
error message or returns a `VerificationResult`. -/
inductive VOutcome where
  | thrown (message : String)
  | returned (r : VerificationResult)
deriving DecidableEq, Repr

/-- Observable result of one whole run: the outcome, how many HTTP attempts
were made, and the total milliseconds spent in backoff sleeps. -/
structure RunResult where
  outcome : VOutcome
  attempts : Nat
  totalSleep : Nat
deriving DecidableEq, Repr

/-- The message the `catch` block records for an attempt outcome (`lastError`):
a non-"1" response body throws `Error(result.result || fallbackText)`, an axios
error carries `error.message`. -/
def caughtMessage (fallbackText : String) : AttemptOutcome → String
  | .ok _ result => orDefault result fallbackText
  | .httpErr _ _ message => message
  | .netErr message => message

/-- The retry loop of `verifyContract` (lines 77-117): `fuel` is the number of
loop iterations left, `attempt` the current 0-based index, `sleepAcc` the sleep
milliseconds so far, `lastError` the recorded last error. A status-"1" body
returns a pending ticket; a non-"1" body throws and is caught; an axios error
with HTTP status exactly 400 rethrows immediately; otherwise the last attempt
throws the exhaustion error and earlier attempts sleep `getRetryDelay(attempt)`
and continue. -/
def verifyGo (responses : Nat → AttemptOutcome) : Nat → Nat → Nat → Option String → RunResult
  | 0, attempt, sleepAcc, lastError =>
      ⟨.thrown (lastError.getD "Verification failed after all retry attempts"), attempt, sleepAcc⟩
  | fuel + 1, attempt, sleepAcc, _ =>
      match responses attempt with
      | .ok status result =>
          if status = "1" then
            ⟨.returned ⟨result, .pending, "Verification submitted successfully", none⟩,
              attempt + 1, sleepAcc⟩
          else
            let msg := orDefault result "Verification submission failed"
            if attempt = RETRY_maxRetries - 1 then
              ⟨.thrown ("Verification failed after " ++ toString RETRY_maxRetries ++
                " attempts: " ++ msg), attempt + 1, sleepAcc⟩
            else
              verifyGo responses fuel (attempt + 1) (sleepAcc + getRetryDelay attempt) (some msg)
      | .httpErr code dataResult message =>
          if code = 400 then
            ⟨.thrown ("Verification failed: " ++
              (match dataResult with
               | some s => orDefault s message
               | none => message)), attempt + 1, sleepAcc⟩
          else if attempt = RETRY_maxRetries - 1 then
            ⟨.thrown ("Verification failed after " ++ toString RETRY_maxRetries ++
              " attempts: " ++ message), attempt + 1, sleepAcc⟩
          else
            verifyGo responses fuel (attempt + 1) (sleepAcc + getRetryDelay attempt) (some message)
      | .netErr message =>
          if attempt = RETRY_maxRetries - 1 then
            ⟨.thrown ("Verification failed after " ++ toString RETRY_maxRetries ++
              " attempts: " ++ message), attempt + 1, sleepAcc⟩
          else
            verifyGo responses fuel (attempt + 1) (sleepAcc + getRetryDelay attempt) (some message)

/-- Models `verifyContract(params)`: the API-configuration guard
(`if (!apiUrl || !apiKey) throw ...`) followed by the retry loop. The HTTP
attempts' outcomes are supplied by `responses`. -/
def verifyContract (env : Env) (chainId : Nat) (responses : Nat → AttemptOutcome) : RunResult :=
  if getExplorerApiUrl env chainId = "" ∨ getExplorerApiKey env = "" then
    ⟨.thrown ("No API configuration found for chain ID " ++ toString chainId), 0, 0⟩
  else
    verifyGo responses RETRY_maxRetries 0 0 none

/-- Models `getExplorerContractUrl(address, chainId)`. -/
def getExplorerContractUrl (env : Env) (address : String) (chainId : Nat) : String :=
  getExplorerUrl env chainId ++ "/address/" ++ address

/-- Interpretation of a status-"1" body by `checkVerificationStatus`
(lines 148-170): exact-match on the result text; on "Pass - Verified" the code
passes the GUID to `getExplorerContractUrl`. -/
def interpretCheckOk (env : Env) (guid : String) (chainId : Nat) (result : String) : VerificationResult :=
  if result = "Pending in queue" then
    ⟨guid, .pending, "Verification is pending", none⟩
  else if result = "Pass - Verified" then
    ⟨guid, .success, "Contract verified successfully", some (getExplorerContractUrl env guid chainId)⟩
  else
    ⟨guid, .failed, result, none⟩

/-- The retry loop of `checkVerificationStatus` (lines 134-188). Its catch
block has no HTTP-400 branch: every caught error takes the last-attempt /
sleep-and-retry path. -/
def checkGo (env : Env) (guid : String) (chainId : Nat) (responses : Nat → AttemptOutcome) :
    Nat → Nat → Nat → Option String → RunResult
  | 0, attempt, sleepAcc, lastError =>
      ⟨.thrown (lastError.getD "Status check failed after all retry attempts"), attempt, sleepAcc⟩
  | fuel + 1, attempt, sleepAcc, _ =>
      match responses attempt with
      | .ok status result =>
          if status = "1" then
            ⟨.returned (interpretCheckOk env guid chainId result), attempt + 1, sleepAcc⟩
          else
            let msg := orDefault result "Status check failed"
            if attempt = RETRY_maxRetries - 1 then
              ⟨.thrown ("Status check failed after " ++ toString RETRY_maxRetries ++
                " attempts: " ++ msg), attempt + 1, sleepAcc⟩
            else
              checkGo env guid chainId responses fuel (attempt + 1)
                (sleepAcc + getRetryDelay attempt) (some msg)
      | .httpErr _ _ message =>
          if attempt = RETRY_maxRetries - 1 then
            ⟨.thrown ("Status check failed after " ++ toString RETRY_maxRetries ++
              " attempts: " ++ message), attempt + 1, sleepAcc⟩
          else
            checkGo env guid chainId responses fuel (attempt + 1)
              (sleepAcc + getRetryDelay attempt) (some message)
      | .netErr message =>
          if attempt = RETRY_maxRetries - 1 then
            ⟨.thrown ("Status check failed after " ++ toString RETRY_maxRetries ++
              " attempts: " ++ message), attempt + 1, sleepAcc⟩
          else
            checkGo env guid chainId responses fuel (attempt + 1)
              (sleepAcc + getRetryDelay attempt) (some message)

/-- Models `checkVerificationStatus(guid, chainId)`: the API-configuration
guard followed by the retry loop. -/
def checkVerificationStatus (env : Env) (guid : String) (chainId : Nat)
    (responses : Nat → AttemptOutcome) : RunResult :=
  if getExplorerApiUrl env chainId = "" ∨ getExplorerApiKey env = "" then
    ⟨.thrown ("No API configuration found for chain ID " ++ toString chainId), 0, 0⟩
  else
    checkGo env guid chainId responses RETRY_maxRetries 0 0 none

/-- Observable result of one run of `pollVerificationStatus`: the returned
ticket, the number of `checkVerificationStatus` calls made, and the total
milliseconds slept between polls. -/
structure PollResult where
  result : VerificationResult
  checks : Nat
  totalSleep : Nat
deriving DecidableEq, Repr

/-- The loop of `pollVerificationStatus` (lines 206-217): each iteration makes
one status check; a non-pending result returns at once; otherwise the loop
sleeps `pollInterval` unless this was the last attempt. `checks` gives the
(pure) result of the status check at each 0-based attempt index. -/
def pollGo (checks : Nat → VerificationResult) (maxAttempts pollInterval : Nat) (guid : String) :
    Nat → Nat → Nat → PollResult
  | 0, attempt, sleepAcc =>
      ⟨⟨guid, .failed, "Verification polling timeout", none⟩, attempt, sleepAcc⟩
  | fuel + 1, attempt, sleepAcc =>
      let r := checks attempt
      if r.status ≠ .pending then
        ⟨r, attempt + 1, sleepAcc⟩
      else if attempt < maxAttempts - 1 then
        pollGo checks maxAttempts pollInterval guid fuel (attempt + 1) (sleepAcc + pollInterval)
      else
        pollGo checks maxAttempts pollInterval guid fuel (attempt + 1) sleepAcc

/-- Models `pollVerificationStatus(guid, chainId, maxAttempts, pollInterval)`.
The retry-looped status checks are abstracted by the per-attempt ticket
`checks` returns. -/
def pollVerificationStatus (checks : Nat → VerificationResult) (guid : String)
    (maxAttempts pollInterval : Nat) : PollResult :=
  pollGo checks maxAttempts pollInterval guid maxAttempts 0 0

/-! Deployed-contract registry (src/src/hooks/useContract.ts). -/

/-- The `DeployedContract` interface (src/src/types/index.ts). `deployedAt` is
a millisecond timestamp; `abi` is kept opaque. -/
structure DeployedContract where
  address : String
  contractName : String
  network : Network
  transactionHash : String
  deployedAt : Nat
  abi : String
deriving DecidableEq, Repr

/-- Models `saveDeployedContract(contract)` (useContract.ts lines 264-270):
`const updated = [...prev, contract]` — a plain append. -/
def saveDeployedContract (prev : List DeployedContract) (contract : DeployedContract) :
    List DeployedContract :=
  prev ++ [contract]

/-- Models `removeDeployedContract(address)` (useContract.ts lines 284-290):
`prev.filter(contract => contract.address !== address)`. -/
def removeDeployedContract (prev : List DeployedContract) (address : String) :
    List DeployedContract :=
  prev.filter (fun contract => contract.address != address)

/-- Number of registry entries carrying a given (address, chainId) identity key. -/
def keyCount (l : List DeployedContract) (address : String) (chainId : Nat) : Nat :=
  (l.filter (fun c => c.address == address && c.network.chainId == chainId)).length

/-! Network switching (src/unnamed/part_012, contractDeployment). -/

/-- A provider error as `switchNetwork`'s catch block sees it: `error.code`
and `error.message`. -/
structure ProviderError where
  code : Int
  message : String
deriving DecidableEq, Repr

/-- Behavior of the wallet provider for one `switchNetwork` call: the outcome
of the (single) `wallet_switchEthereumChain` request, and of a
`wallet_addEthereumChain` request should one be made (`none` = success). -/
structure ProviderBehavior where
  switchError : Option ProviderError
  addError : Option String
deriving DecidableEq, Repr

/-- Hex chain-id encoding used in the requests: backtick-free model of
`0x+chainId.toString(16)`. -/
def toHexChainId (chainId : Nat) : String :=
  "0x" ++ String.mk (Nat.toDigits 16 chainId)

/-- Parameter object passed to `wallet_addEthereumChain` by `addNetwork`
(part_012 lines 349-358). -/
structure AddChainParams where
  chainIdHex : String
  chainName : String
  nativeCurrency : NativeCurrency
  rpcUrls : List String
  blockExplorerUrls : List String
deriving DecidableEq, Repr

/-- The params `addNetwork(network)` supplies, from the Network Registry
descriptor: `blockExplorerUrls` is `[blockExplorer]` when truthy, else `[]`. -/
def mkAddChainParams (network : Network) : AddChainParams :=
  ⟨toHexChainId network.chainId, network.name, network.nativeCurrency, [network.rpcUrl],
    if network.blockExplorer = "" then [] else [network.blockExplorer]⟩

/-- Result of a `switchNetwork` call. -/
inductive SwitchOutcome where
  | ok
  | err (message : String)
deriving DecidableEq, Repr

/-- Trace of one `switchNetwork` run: the hex chain ids sent as
`wallet_switchEthereumChain` requests, the `wallet_addEthereumChain` requests
made, and the outcome. -/
structure SwitchTrace where
  switchRequests : List String
  addRequests : List AddChainParams
  outcome : SwitchOutcome
deriving DecidableEq, Repr

/-- Models `switchNetwork(chainId)` (part_012 lines 320-342) together with its
helper `addNetwork` (lines 345-362), assuming the provider is present.
Unknown chain id throws the not-supported error; a switch error with code 4902
or -32603 triggers one `wallet_addEthereumChain` request — and, in the source,
no second switch request. -/
def switchNetwork (env : Env) (provider : ProviderBehavior) (chainId : Nat) : SwitchTrace :=
  match getNetworkByChainId env chainId with
  | none =>
      ⟨[], [], .err ("Network with chain ID " ++ toString chainId ++ " is not supported.")⟩
  | some network =>
      match provider.switchError with
      | none => ⟨[toHexChainId chainId], [], .ok⟩
      | some e =>
          if e.code = 4902 ∨ e.code = -32603 then
            match provider.addError with
            | none => ⟨[toHexChainId chainId], [mkAddChainParams network], .ok⟩
            | some msg =>
                ⟨[toHexChainId chainId], [mkAddChainParams network],
                  .err ("Failed to add network: " ++ msg)⟩
          else
            ⟨[toHexChainId chainId], [], .err ("Failed to switch network: " ++ e.message)⟩

/-! Wallet connection state machine (src/src/hooks/useWallet.ts). -/

/-- The two localStorage keys the wallet hook maintains
(`wallet_connected`, `wallet_address`). -/
structure WalletStorage where
  walletConnected : Option String
  walletAddress : Option String
deriving DecidableEq, Repr

/-- The observable `useWallet` state (address, isConnected, chainId, error)
plus the persisted storage. The signer handle is opaque and omitted. -/
structure WalletState where
  address : Option String
  isConnected : Bool
  chainId : Option Nat
  error : Option String
  storage : WalletStorage
deriving DecidableEq, Repr

/-- Initial hook state: all null, not connected, empty storage. -/
def initialWalletState : WalletState :=
  ⟨none, false, none, none, ⟨none, none⟩⟩

/-- External events driving the hook: a `connect()` that succeeds (carrying the
address the signer reports and the numeric chain id the provider reports), a
`connect()` that fails with a message, `disconnect()`, a provider
`accountsChanged` notification, and a provider `chainChanged` notification. -/
inductive WalletEvent where
  | connectOk (address : String) (chainId : Nat)
  | connectFail (message : String)
  | disconnect
  | accountsChanged (accounts : List String)
  | chainChanged (chainId : Nat)
deriving DecidableEq, Repr

/-- The `disconnect` callback (useWallet.ts lines 94-104): reset every field
and remove both storage keys. -/
def disconnectStep (_s : WalletState) : WalletState :=
  ⟨none, false, none, none, ⟨none, none⟩⟩

/-- One event applied to the state. `accountsChanged` with an empty list runs
the disconnect path; otherwise `setAddress(accounts[0] || null)`, so an empty
first account string stores null. `chainChanged` only updates the chain id. -/
def walletStep (s : WalletState) : WalletEvent → WalletState
  | .connectOk address chainId =>
      { s with address := some address, isConnected := true, chainId := some chainId,
               error := none }
  | .connectFail message =>
      { s with error := some message }
  | .disconnect => disconnectStep s
  | .accountsChanged accounts =>
      match accounts with
      | [] => disconnectStep s
      | a :: _ => { s with address := if a = "" then none else some a }
  | .chainChanged chainId =>
      { s with chainId := some chainId }

/-- The persistence effect (useWallet.ts lines 204-209): after a state change,
`if (isConnected && address)` write `wallet_connected="true"` and
`wallet_address=address` (an empty-string address is falsy and skips
the write). -/
def persistEffect (s : WalletState) : WalletState :=
  match s.address with
  | some a =>
      if s.isConnected ∧ a ≠ "" then
        { s with storage := ⟨some "true", some a⟩ }
      else s
  | none => s

/-- Run a finite event sequence from the disconnected initial state, applying
the persistence effect after every event. -/
def runWallet (events : List WalletEvent) : WalletState :=
  events.foldl (fun s e => persistEffect (walletStep s e)) initialWalletState

/-! Spec-side predicates and concrete test fixtures. -/

/-- Transient attempt outcome in the sense of the spec retry law: a delivered
non-"1" body, a response-carrying HTTP error other than status 400, or a
response-less network error. -/
def isTransient : AttemptOutcome → Bool
  | .ok status _ => status != "1"
  | .httpErr code _ _ => code != 400
  | .netErr _ => true

/-- Attempt outcome that lands in the catch block of the status-check loop
(everything except a delivered status-"1" body). -/
def isFailure : AttemptOutcome → Bool
  | .ok status _ => status != "1"
  | .httpErr _ _ _ => true
  | .netErr _ => true

/-- The message embedded in the thrown 400 error:
`error.response.data?.result || error.message`. -/
def http400Message (dataResult : Option String) (message : String) : String :=
  match dataResult with
  | some s => orDefault s message
  | none => message

/-- Events whose account payload never starts with an empty account string. -/
def goodEventB : WalletEvent → Bool
  | .accountsChanged (a :: _) => a != ""
  | _ => true

/-- Environment with an explorer API key configured and no QuickNode URL. -/
def envWithKey : Env := ⟨none, some "TESTKEY", "http://127.0.0.1:8545"⟩

/-- Environment with no explorer API key configured. -/
def envNoKey : Env := ⟨none, none, "http://127.0.0.1:8545"⟩

/-- Attempt outcomes for the backoff witness: two transient failures, then a
delivered success body. -/
def c2responses : Nat → AttemptOutcome := fun i =>
  if i = 0 then .netErr "timeout of 30000ms exceeded"
  else if i = 1 then .httpErr 500 none "Request failed with status code 500"
  else .ok "1" "guid-1"

/-- Attempt outcomes with an HTTP 400 on the first attempt and a delivered
success body on the second. -/
def c3responses : Nat → AttemptOutcome := fun i =>
  if i = 0 then .httpErr 400 (some "Invalid API Key") "Request failed with status code 400"
  else .ok "1" "Pending in queue"

/-- A forever-pending status-check result. -/
def pendingChecks : Nat → VerificationResult := fun _ =>
  ⟨"g", .pending, "Verification is pending", none⟩

/-- The Ethereum mainnet descriptor as `networks envNoKey` holds it. -/
def ethereumFixture : Network :=
  ⟨"ethereum", "Ethereum Mainnet", 1, "", "https://etherscan.io",
    "https://api.etherscan.io/api", ⟨"Ethereum", "ETH", 18⟩⟩

/-- The Base mainnet descriptor as `networks envNoKey` holds it. -/
def baseFixture : Network :=
  ⟨"base", "Base Mainnet", 8453, "", "https://basescan.org",
    "https://api.basescan.org/api", ⟨"Ethereum", "ETH", 18⟩⟩

/-- Registry record fixture on chain 1. -/
def recA : DeployedContract := ⟨"0x1234", "Token", ethereumFixture, "0xaaa", 100, "[]"⟩

/-- A second record with the same (address, chainId) identity key as `recA`
but different field values. -/
def recB : DeployedContract := ⟨"0x1234", "TokenV2", ethereumFixture, "0xbbb", 200, "[]"⟩

/-- A record with the same address as `recA` but on chain 8453. -/
def recC : DeployedContract := ⟨"0x1234", "Token", baseFixture, "0xccc", 300, "[]"⟩

/-- Provider behavior reporting the target chain as unknown (code 4902) and
accepting the subsequent add request. -/
def unknownChainProvider : ProviderBehavior :=
  ⟨some ⟨4902, "Unrecognized chain ID"⟩, none⟩

/-! Helper lemmas about the retry loops. -/

lemma isTransient_isFailure (o : AttemptOutcome) (h : isTransient o = true) :
    isFailure o = true := by
  cases o with
  | ok status result => simpa [isTransient, isFailure] using h
  | httpErr code dataResult message => simp [isFailure]
  | netErr message => simp [isFailure]

lemma verifyGo_ok_step (responses : Nat → AttemptOutcome)
    (fuel attempt sleepAcc : Nat) (lastError : Option String) (g : String)
    (h : responses attempt = .ok "1" g) :
    verifyGo responses (fuel + 1) attempt sleepAcc lastError =
      ⟨.returned ⟨g, .pending, "Verification submitted successfully", none⟩,
        attempt + 1, sleepAcc⟩ := by
  simp [verifyGo, h]

lemma verifyGo_http400_step (responses : Nat → AttemptOutcome)
    (fuel attempt sleepAcc : Nat) (lastError : Option String)
    (dataResult : Option String) (message : String)
    (h : responses attempt = .httpErr 400 dataResult message) :
    verifyGo responses (fuel + 1) attempt sleepAcc lastError =
      ⟨.thrown ("Verification failed: " ++ http400Message dataResult message),
        attempt + 1, sleepAcc⟩ := by
  cases dataResult with
  | none => simp [verifyGo, http400Message, h]
  | some s => simp [verifyGo, http400Message, h]

lemma verifyGo_transient_step (responses : Nat → AttemptOutcome)
    (fuel attempt sleepAcc : Nat) (lastError : Option String)
    (ht : isTransient (responses attempt) = true)
    (hlt : attempt < RETRY_maxRetries - 1) :
    ∃ m, verifyGo responses (fuel + 1) attempt sleepAcc lastError =
      verifyGo responses fuel (attempt + 1) (sleepAcc + getRetryDelay attempt) (some m) := by
  have hne : attempt ≠ RETRY_maxRetries - 1 := Nat.ne_of_lt hlt
  cases h : responses attempt with
  | ok status result =>
      have hs : ¬ status = "1" := by
        rw [h] at ht
        simpa [isTransient] using ht
      exact ⟨orDefault result "Verification submission failed", by simp [verifyGo, h, hs, hne]⟩
  | httpErr code dataResult message =>
      have hc : ¬ code = 400 := by
        rw [h] at ht
        simpa [isTransient] using ht
      exact ⟨message, by simp [verifyGo, h, hc, hne]⟩
  | netErr message =>
      exact ⟨message, by simp [verifyGo, h, hne]⟩

lemma verifyGo_skip (responses : Nat → AttemptOutcome) (j : Nat) :
    ∀ (attempt sleepAcc : Nat) (lastError : Option String),
      attempt + j < RETRY_maxRetries →
      (∀ i, i < j → isTransient (responses (attempt + i)) = true) →
      ∃ le2, verifyGo responses (RETRY_maxRetries - attempt) attempt sleepAcc lastError =
        verifyGo responses (RETRY_maxRetries - (attempt + j)) (attempt + j)
          (sleepAcc + ∑ i ∈ Finset.range j, getRetryDelay (attempt + i)) le2 := by
  induction j with
  | zero =>
      intro attempt sleepAcc lastError _ _
      exact ⟨lastError, by simp⟩
  | succ j ih =>
      intro attempt sleepAcc lastError hlt htr
      have h1 : attempt < RETRY_maxRetries - 1 := by
        simp only [RETRY_maxRetries] at hlt ⊢
        omega
      have ht0 : isTransient (responses attempt) = true := by
        simpa using htr 0 (Nat.succ_pos j)
      have hfuel : RETRY_maxRetries - attempt = (RETRY_maxRetries - (attempt + 1)) + 1 := by
        simp only [RETRY_maxRetries] at hlt ⊢
        omega
      obtain ⟨m, hm⟩ := verifyGo_transient_step responses (RETRY_maxRetries - (attempt + 1))
        attempt sleepAcc lastError ht0 h1
      obtain ⟨le2, hrest⟩ := ih (attempt + 1) (sleepAcc + getRetryDelay attempt) (some m)
        (by omega)
        (fun i hi => by
          have h2 := htr (i + 1) (by omega)
          have h3 : attempt + 1 + i = attempt + (i + 1) := by omega
          rw [h3]
          exact h2)
      refine ⟨le2, ?_⟩
      have e1 : attempt + 1 + j = attempt + (j + 1) := by omega
      have e2 : sleepAcc + getRetryDelay attempt + ∑ i ∈ Finset.range j, getRetryDelay (attempt + 1 + i) =
          sleepAcc + ∑ i ∈ Finset.range (j + 1), getRetryDelay (attempt + i) := by
        rw [Finset.sum_range_succ']
        have h4 : ∑ i ∈ Finset.range j, getRetryDelay (attempt + (i + 1)) =
            ∑ i ∈ Finset.range j, getRetryDelay (attempt + 1 + i) :=
          Finset.sum_congr rfl (fun i _ => congrArg getRetryDelay (by omega))
        have h5 : getRetryDelay (attempt + 0) = getRetryDelay attempt :=
          congrArg getRetryDelay (Nat.add_zero attempt)
        rw [h4, h5]
        omega
      rw [hfuel, hm, hrest, e1, e2]

lemma checkGo_ok_step (env : Env) (guid : String) (chainId : Nat)
    (responses : Nat → AttemptOutcome)
    (fuel attempt sleepAcc : Nat) (lastError : Option String) (r : String)
    (h : responses attempt = .ok "1" r) :
    checkGo env guid chainId responses (fuel + 1) attempt sleepAcc lastError =
      ⟨.returned (interpretCheckOk env guid chainId r), attempt + 1, sleepAcc⟩ := by
  simp [checkGo, h]

lemma checkGo_failure_step (env : Env) (guid : String) (chainId : Nat)
    (responses : Nat → AttemptOutcome)
    (fuel attempt sleepAcc : Nat) (lastError : Option String)
    (ht : isFailure (responses attempt) = true)
    (hlt : attempt < RETRY_maxRetries - 1) :
    ∃ m, checkGo env guid chainId responses (fuel + 1) attempt sleepAcc lastError =
      checkGo env guid chainId responses fuel (attempt + 1)
        (sleepAcc + getRetryDelay attempt) (some m) := by
  have hne : attempt ≠ RETRY_maxRetries - 1 := Nat.ne_of_lt hlt
  cases h : responses attempt with
  | ok status result =>
      have hs : ¬ status = "1" := by
        rw [h] at ht
        simpa [isFailure] using ht
      exact ⟨orDefault result "Status check failed", by simp [checkGo, h, hs, hne]⟩
  | httpErr code dataResult message =>
      exact ⟨message, by simp [checkGo, h, hne]⟩
  | netErr message =>
      exact ⟨message, by simp [checkGo, h, hne]⟩

lemma checkGo_skip (env : Env) (guid : String) (chainId : Nat)
    (responses : Nat → AttemptOutcome) (j : Nat) :
    ∀ (attempt sleepAcc : Nat) (lastError : Option String),
      attempt + j < RETRY_maxRetries →
      (∀ i, i < j → isFailure (responses (attempt + i)) = true) →
      ∃ le2, checkGo env guid chainId responses (RETRY_maxRetries - attempt) attempt sleepAcc lastError =
        checkGo env guid chainId responses (RETRY_maxRetries - (attempt + j)) (attempt + j)
          (sleepAcc + ∑ i ∈ Finset.range j, getRetryDelay (attempt + i)) le2 := by
  induction j with
  | zero =>
      intro attempt sleepAcc lastError _ _
      exact ⟨lastError, by simp⟩
  | succ j ih =>
      intro attempt sleepAcc lastError hlt htr
      have h1 : attempt < RETRY_maxRetries - 1 := by
        simp only [RETRY_maxRetries] at hlt ⊢
        omega
      have ht0 : isFailure (responses attempt) = true := by
        simpa using htr 0 (Nat.succ_pos j)
      have hfuel : RETRY_maxRetries - attempt = (RETRY_maxRetries - (attempt + 1)) + 1 := by
        simp only [RETRY_maxRetries] at hlt ⊢
        omega
      obtain ⟨m, hm⟩ := checkGo_failure_step env guid chainId responses
        (RETRY_maxRetries - (attempt + 1)) attempt sleepAcc lastError ht0 h1
      obtain ⟨le2, hrest⟩ := ih (attempt + 1) (sleepAcc + getRetryDelay attempt) (some m)
        (by omega)
        (fun i hi => by
          have h2 := htr (i + 1) (by omega)
          have h3 : attempt + 1 + i = attempt + (i + 1) := by omega
          rw [h3]
          exact h2)
      refine ⟨le2, ?_⟩
      have e1 : attempt + 1 + j = attempt + (j + 1) := by omega
      have e2 : sleepAcc + getRetryDelay attempt + ∑ i ∈ Finset.range j, getRetryDelay (attempt + 1 + i) =
          sleepAcc + ∑ i ∈ Finset.range (j + 1), getRetryDelay (attempt + i) := by
        rw [Finset.sum_range_succ']
        have h4 : ∑ i ∈ Finset.range j, getRetryDelay (attempt + (i + 1)) =
            ∑ i ∈ Finset.range j, getRetryDelay (attempt + 1 + i) :=
          Finset.sum_congr rfl (fun i _ => congrArg getRetryDelay (by omega))
        have h5 : getRetryDelay (attempt + 0) = getRetryDelay attempt :=
          congrArg getRetryDelay (Nat.add_zero attempt)
        rw [h4, h5]
        omega
      rw [hfuel, hm, hrest, e1, e2]

lemma verify_run_ok (responses : Nat → AttemptOutcome) (k : Nat) (g : String)
    (hk : k < RETRY_maxRetries)
    (htr : ∀ i, i < k → isTransient (responses i) = true)
    (hok : responses k = .ok "1" g) :
    verifyGo responses RETRY_maxRetries 0 0 none =
      ⟨.returned ⟨g, .pending, "Verification submitted successfully", none⟩, k + 1,
        ∑ i ∈ Finset.range k, getRetryDelay i⟩ := by
  obtain ⟨le2, hskip⟩ := verifyGo_skip responses k 0 0 none (by simpa using hk)
    (fun i hi => by simpa using htr i hi)
  simp only [Nat.sub_zero, Nat.zero_add] at hskip
  rw [hskip]
  have hfuel : RETRY_maxRetries - k = (RETRY_maxRetries - k - 1) + 1 := by
    simp only [RETRY_maxRetries] at hk ⊢
    omega
  rw [hfuel, verifyGo_ok_step responses (RETRY_maxRetries - k - 1) k _ le2 g hok]

lemma verify_run_400 (responses : Nat → AttemptOutcome) (k : Nat)
    (dataResult : Option String) (message : String)
    (hk : k < RETRY_maxRetries)
    (htr : ∀ i, i < k → isTransient (responses i) = true)
    (h400 : responses k = .httpErr 400 dataResult message) :
    verifyGo responses RETRY_maxRetries 0 0 none =
      ⟨.thrown ("Verification failed: " ++ http400Message dataResult message),
        k + 1, ∑ i ∈ Finset.range k, getRetryDelay i⟩ := by
  obtain ⟨le2, hskip⟩ := verifyGo_skip responses k 0 0 none (by simpa using hk)
    (fun i hi => by simpa using htr i hi)
  simp only [Nat.sub_zero, Nat.zero_add] at hskip
  rw [hskip]
  have hfuel : RETRY_maxRetries - k = (RETRY_maxRetries - k - 1) + 1 := by
    simp only [RETRY_maxRetries] at hk ⊢
    omega
  rw [hfuel, verifyGo_http400_step responses (RETRY_maxRetries - k - 1) k _ le2 dataResult message h400]

lemma check_run_ok (env : Env) (guid : String) (chainId : Nat)
    (responses : Nat → AttemptOutcome) (k : Nat) (r : String)
    (hk : k < RETRY_maxRetries)
    (htr : ∀ i, i < k → isFailure (responses i) = true)
    (hok : responses k = .ok "1" r) :
    checkGo env guid chainId responses RETRY_maxRetries 0 0 none =
      ⟨.returned (interpretCheckOk env guid chainId r), k + 1,
        ∑ i ∈ Finset.range k, getRetryDelay i⟩ := by
  obtain ⟨le2, hskip⟩ := checkGo_skip env guid chainId responses k 0 0 none (by simpa using hk)
    (fun i hi => by simpa using htr i hi)
  simp only [Nat.sub_zero, Nat.zero_add] at hskip
  rw [hskip]
  have hfuel : RETRY_maxRetries - k = (RETRY_maxRetries - k - 1) + 1 := by
    simp only [RETRY_maxRetries] at hk ⊢
    omega
  rw [hfuel, checkGo_ok_step env guid chainId responses (RETRY_maxRetries - k - 1) k _ le2 r hok]

/-! Claim theorems (verification orchestrator). -/

/-- C2: the per-attempt backoff delay is min(1000 * 2^attempt, 30000) ms, and
for k < 5, if the first k attempts fail transiently and attempt k+1 delivers a
status-"1" body, both the verification submit and the status check succeed on
the (k+1)th attempt after sleeping the sum over i < k of min(1000 * 2^i, 30000)
milliseconds. -/
theorem retry_backoff_law (env : Env) (chainId k : Nat) (responses : Nat → AttemptOutcome)
    (guid g : String)
    (happi : getExplorerApiUrl env chainId ≠ "")
    (hkey : getExplorerApiKey env ≠ "")
    (hk : k < RETRY_maxRetries)
    (htr : ∀ i, i < k → isTransient (responses i) = true)
    (hok : responses k = .ok "1" g) :
    (∀ attempt, getRetryDelay attempt = min (1000 * 2 ^ attempt) 30000)
    ∧ verifyContract env chainId responses =
        ⟨.returned ⟨g, .pending, "Verification submitted successfully", none⟩, k + 1,
          ∑ i ∈ Finset.range k, getRetryDelay i⟩
    ∧ checkVerificationStatus env guid chainId responses =
        ⟨.returned (interpretCheckOk env guid chainId g), k + 1,
          ∑ i ∈ Finset.range k, getRetryDelay i⟩ := by
  refine ⟨fun attempt => rfl, ?_, ?_⟩
  · rw [verifyContract, if_neg (by push_neg; exact ⟨happi, hkey⟩)]
    exact verify_run_ok responses k g hk htr hok
  · rw [checkVerificationStatus, if_neg (by push_neg; exact ⟨happi, hkey⟩)]
    exact check_run_ok env guid chainId responses k g hk
      (fun i hi => isTransient_isFailure _ (htr i hi)) hok

/-- Witness for retry_backoff_law: two transient failures then a success on
the third attempt, total sleep 1000 + 2000 = 3000 ms. -/
theorem retry_backoff_law_witness :
    (∀ i, i < 2 → isTransient (c2responses i) = true)
    ∧ c2responses 2 = .ok "1" "guid-1"
    ∧ verifyContract envWithKey 1 c2responses =
        ⟨.returned ⟨"guid-1", .pending, "Verification submitted successfully", none⟩, 3, 3000⟩ := by
  have h := (retry_backoff_law envWithKey 1 2 c2responses "g" "guid-1" (by decide) (by decide)
    (by decide) (fun i hi => by interval_cases i <;> decide) rfl).2.1
  refine ⟨fun i hi => by interval_cases i <;> decide, rfl, ?_⟩
  rw [h]
  norm_num [Finset.sum_range_succ, getRetryDelay, RETRY_baseDelay, RETRY_maxDelay]

/-- C3 amended: only the submit operation short-circuits, and only on HTTP
status exactly 400 — after k transient attempts a 400 makes it throw at once,
with k+1 attempts and no sleep after the 400. The status-check operation does
not short-circuit: a 400 response is caught like a transient failure, slept on,
and retried. -/
theorem http400_short_circuit_submit_only (env : Env) (chainId k : Nat)
    (responses : Nat → AttemptOutcome) (guid : String)
    (dataResult : Option String) (message r : String)
    (happi : getExplorerApiUrl env chainId ≠ "")
    (hkey : getExplorerApiKey env ≠ "")
    (hk : k < RETRY_maxRetries)
    (htr : ∀ i, i < k → isTransient (responses i) = true)
    (h400 : responses k = .httpErr 400 dataResult message) :
    verifyContract env chainId responses =
      ⟨.thrown ("Verification failed: " ++ http400Message dataResult message),
        k + 1, ∑ i ∈ Finset.range k, getRetryDelay i⟩
    ∧ (k + 1 < RETRY_maxRetries → responses (k + 1) = .ok "1" r →
        checkVerificationStatus env guid chainId responses =
          ⟨.returned (interpretCheckOk env guid chainId r), k + 2,
            ∑ i ∈ Finset.range (k + 1), getRetryDelay i⟩) := by
  constructor
  · rw [verifyContract, if_neg (by push_neg; exact ⟨happi, hkey⟩)]
    exact verify_run_400 responses k dataResult message hk htr h400
  · intro hk1 hok
    rw [checkVerificationStatus, if_neg (by push_neg; exact ⟨happi, hkey⟩)]
    have hfail : ∀ i, i < k + 1 → isFailure (responses i) = true := by
      intro i hi
      rcases Nat.lt_or_ge i k with h | h
      · exact isTransient_isFailure _ (htr i h)
      · have : i = k := by omega
        rw [this, h400]
        simp [isFailure]
    have := check_run_ok env guid chainId responses (k + 1) r hk1 hfail hok
    simpa using this

/-- Counterexample to C3 as stated: for the status-check operation an HTTP 400
on the first attempt does not terminate the run — a second attempt is made
after a 1000 ms backoff sleep. -/
theorem check_400_is_retried :
    checkVerificationStatus envWithKey "g" 1 c3responses =
      ⟨.returned ⟨"g", .pending, "Verification is pending", none⟩, 2, 1000⟩
    ∧ (checkVerificationStatus envWithKey "g" 1 c3responses).attempts ≠ 1
    ∧ (checkVerificationStatus envWithKey "g" 1 c3responses).totalSleep ≠ 0 := by
  refine ⟨?_, ?_, ?_⟩ <;> decide

/-- Witness for http400_short_circuit_submit_only: a bare 400 on the first
submit attempt throws at once with one attempt and zero sleep, while the
status check retries it. -/
theorem http400_short_circuit_submit_only_witness :
    verifyContract envWithKey 1 c3responses =
      ⟨.thrown ("Verification failed: " ++ "Invalid API Key"), 1, 0⟩
    ∧ checkVerificationStatus envWithKey "g" 1 c3responses =
        ⟨.returned (interpretCheckOk envWithKey "g" 1 "Pending in queue"), 2,
          ∑ i ∈ Finset.range 1, getRetryDelay i⟩ := by
  have h := http400_short_circuit_submit_only envWithKey 1 0 c3responses "g"
    (some "Invalid API Key") "Request failed with status code 400" "Pending in queue"
    (by decide) (by decide) (by decide) (fun i hi => absurd hi (Nat.not_lt_zero i)) rfl
  refine ⟨?_, ?_⟩
  · have h1 := h.1
    simpa [http400Message, orDefault] using h1
  · have h2 := h.2 (by decide) rfl
    simpa using h2

/-- C4: on a status-"1" status-check response, "Pending in queue" yields a
pending ticket and any other terminal text yields a failed ticket with that
text — but on "Pass - Verified" the code builds explorerUrl from the GUID, not
from the contract address: for guid "123abc" on chain 1 it returns
https://etherscan.io/address/123abc, which differs from the address form
https://etherscan.io/address/0xdeadbeef of a contract at 0xdeadbeef. -/
theorem checkStatus_success_url_uses_guid :
    checkVerificationStatus envWithKey "123abc" 1 (fun _ => .ok "1" "Pass - Verified") =
      ⟨.returned ⟨"123abc", .success, "Contract verified successfully",
        some "https://etherscan.io/address/123abc"⟩, 1, 0⟩
    ∧ ("https://etherscan.io/address/123abc" : String) ≠ "https://etherscan.io/address/0xdeadbeef"
    ∧ interpretCheckOk envWithKey "123abc" 1 "Pending in queue" =
        ⟨"123abc", .pending, "Verification is pending", none⟩
    ∧ interpretCheckOk envWithKey "123abc" 1 "Already Verified" =
        ⟨"123abc", .failed, "Already Verified", none⟩ := by
  refine ⟨?_, ?_, ?_, ?_⟩ <;> decide

/-- C10: with the explorer API key configured empty, both the submit and the
status-check operation throw the no-API-configuration error for the chain id
at once, before any HTTP attempt and with zero sleep — for every chain id,
including ones whose explorer API URL is configured. -/
theorem empty_api_key_throws (env : Env) (chainId : Nat) (guid : String)
    (responses : Nat → AttemptOutcome)
    (hkey : getExplorerApiKey env = "") :
    verifyContract env chainId responses =
      ⟨.thrown ("No API configuration found for chain ID " ++ toString chainId), 0, 0⟩
    ∧ checkVerificationStatus env guid chainId responses =
        ⟨.thrown ("No API configuration found for chain ID " ++ toString chainId), 0, 0⟩ := by
  constructor
  · rw [verifyContract, if_pos (Or.inr hkey)]
  · rw [checkVerificationStatus, if_pos (Or.inr hkey)]

/-- Witness for empty_api_key_throws at chain id 1, whose explorer API URL is
configured. -/
theorem empty_api_key_throws_witness :
    getExplorerApiKey envNoKey = ""
    ∧ getExplorerApiUrl envNoKey 1 = "https://api.etherscan.io/api"
    ∧ verifyContract envNoKey 1 (fun _ => .netErr "x") =
        ⟨.thrown ("No API configuration found for chain ID " ++ toString 1), 0, 0⟩
    ∧ checkVerificationStatus envNoKey "g" 1 (fun _ => .netErr "x") =
        ⟨.thrown ("No API configuration found for chain ID " ++ toString 1), 0, 0⟩ := by
  refine ⟨rfl, by decide, ?_, ?_⟩
  · exact (empty_api_key_throws envNoKey 1 "g" (fun _ => .netErr "x") rfl).1
  · exact (empty_api_key_throws envNoKey 1 "g" (fun _ => .netErr "x") rfl).2

/-! Polling lemmas and claim theorem. -/

lemma pollGo_pending_step (checks : Nat → VerificationResult) (maxAttempts pollInterval : Nat)
    (guid : String) (fuel attempt sleepAcc : Nat)
    (hp : (checks attempt).status = .pending) :
    pollGo checks maxAttempts pollInterval guid (fuel + 1) attempt sleepAcc =
      if attempt < maxAttempts - 1 then
        pollGo checks maxAttempts pollInterval guid fuel (attempt + 1) (sleepAcc + pollInterval)
      else
        pollGo checks maxAttempts pollInterval guid fuel (attempt + 1) sleepAcc := by
  simp [pollGo, hp]

lemma pollGo_all_pending (checks : Nat → VerificationResult) (maxAttempts pollInterval : Nat)
    (guid : String) :
    ∀ (fuel attempt sleepAcc : Nat), attempt + fuel = maxAttempts →
      (∀ i, i < maxAttempts → (checks i).status = .pending) →
      pollGo checks maxAttempts pollInterval guid fuel attempt sleepAcc =
        ⟨⟨guid, .failed, "Verification polling timeout", none⟩, attempt + fuel,
          sleepAcc + (fuel - 1) * pollInterval⟩ := by
  intro fuel
  induction fuel with
  | zero =>
      intro attempt sleepAcc _ _
      simp [pollGo]
  | succ f ih =>
      intro attempt sleepAcc htot hall
      have hp : (checks attempt).status = .pending := hall attempt (by omega)
      cases f with
      | zero =>
          have hcond : ¬ attempt < maxAttempts - 1 := by omega
          rw [pollGo_pending_step checks maxAttempts pollInterval guid 0 attempt sleepAcc hp,
            if_neg hcond]
          simp [pollGo]
      | succ f2 =>
          have hcond : attempt < maxAttempts - 1 := by omega
          have hrec := ih (attempt + 1) (sleepAcc + pollInterval) (by omega) hall
          rw [pollGo_pending_step checks maxAttempts pollInterval guid (f2 + 1) attempt sleepAcc hp,
            if_pos hcond, hrec]
          have e1 : attempt + 1 + (f2 + 1) = attempt + (f2 + 1 + 1) := by omega
          have e2 : sleepAcc + pollInterval + (f2 + 1 - 1) * pollInterval =
              sleepAcc + (f2 + 1 + 1 - 1) * pollInterval := by
            simp only [Nat.add_sub_cancel]
            ring
          rw [e1, e2]

lemma pollGo_first_terminal (checks : Nat → VerificationResult) (maxAttempts pollInterval : Nat)
    (guid : String) :
    ∀ (j fuel attempt sleepAcc : Nat), j < fuel → attempt + fuel ≤ maxAttempts →
      (∀ i, i < j → (checks (attempt + i)).status = .pending) →
      (checks (attempt + j)).status ≠ .pending →
      pollGo checks maxAttempts pollInterval guid fuel attempt sleepAcc =
        ⟨checks (attempt + j), attempt + j + 1, sleepAcc + j * pollInterval⟩ := by
  intro j
  induction j with
  | zero =>
      intro fuel attempt sleepAcc hj hle hpend hterm
      cases fuel with
      | zero => omega
      | succ f =>
          simp only [Nat.add_zero] at hterm
          simp [pollGo, hterm]
  | succ j ih =>
      intro fuel attempt sleepAcc hj hle hpend hterm
      cases fuel with
      | zero => omega
      | succ f =>
          have hp : (checks attempt).status = .pending := by
            simpa using hpend 0 (by omega)
          have hcond : attempt < maxAttempts - 1 := by omega
          have hrec := ih f (attempt + 1) (sleepAcc + pollInterval) (by omega) (by omega)
            (fun i hi => by
              have h2 := hpend (i + 1) (by omega)
              have h3 : attempt + 1 + i = attempt + (i + 1) := by omega
              rw [h3]
              exact h2)
            (by
              have h3 : attempt + 1 + j = attempt + (j + 1) := by omega
              rw [h3]
              exact hterm)
          rw [pollGo_pending_step checks maxAttempts pollInterval guid f attempt sleepAcc hp,
            if_pos hcond, hrec]
          have e1 : attempt + 1 + j = attempt + (j + 1) := by omega
          have e2 : sleepAcc + pollInterval + j * pollInterval =
              sleepAcc + (j + 1) * pollInterval := by ring
          rw [e1, e2]

/-- C5: for maxAttempts at least 1, if every status check is pending,
pollVerificationStatus makes exactly maxAttempts checks and returns the
synthetic failed "Verification polling timeout" ticket; if some check is the
first non-pending one at index j, it returns that ticket after exactly j+1
checks. -/
theorem pollUntilTerminal_behavior (checks : Nat → VerificationResult) (guid : String)
    (maxAttempts pollInterval : Nat) (_hmax : 1 ≤ maxAttempts) :
    ((∀ i, i < maxAttempts → (checks i).status = .pending) →
      pollVerificationStatus checks guid maxAttempts pollInterval =
        ⟨⟨guid, .failed, "Verification polling timeout", none⟩, maxAttempts,
          (maxAttempts - 1) * pollInterval⟩)
    ∧ (∀ j, j < maxAttempts → (∀ i, i < j → (checks i).status = .pending) →
        (checks j).status ≠ .pending →
        pollVerificationStatus checks guid maxAttempts pollInterval =
          ⟨checks j, j + 1, j * pollInterval⟩) := by
  constructor
  · intro hall
    have h := pollGo_all_pending checks maxAttempts pollInterval guid maxAttempts 0 0
      (by omega) hall
    simpa [pollVerificationStatus] using h
  · intro j hj hpend hterm
    have h := pollGo_first_terminal checks maxAttempts pollInterval guid j maxAttempts 0 0 hj
      (by omega) (fun i hi => by simpa using hpend i hi) (by simpa using hterm)
    simpa [pollVerificationStatus] using h

/-- Witness for pollUntilTerminal_behavior: three always-pending checks with a
zero interval end in the synthetic timeout ticket after exactly 3 checks. -/
theorem pollUntilTerminal_behavior_witness :
    pollVerificationStatus pendingChecks "g" 3 0 =
      ⟨⟨"g", .failed, "Verification polling timeout", none⟩, 3, 0⟩ := by
  have h := (pollUntilTerminal_behavior pendingChecks "g" 3 0 (by omega)).1 (fun i _ => rfl)
  simpa using h

/-! Registry claim theorems. -/

/-- Counterexample to C6 as stated: adding two records with the same
(address, chainId) identity key leaves two entries in the list, not one. -/
theorem registry_add_duplicates :
    keyCount (saveDeployedContract (saveDeployedContract [] recA) recB) "0x1234" 1 = 2
    ∧ keyCount (saveDeployedContract (saveDeployedContract [] recA) recB) "0x1234" 1 ≠ 1 := by
  refine ⟨?_, ?_⟩ <;> decide

/-- C6 amended: the registry add appends unconditionally — adding two records
that share an (address, chainId) key yields the previous list followed by both
records in order, so the number of entries with that key grows by exactly two;
no replacement or deduplication happens. -/
theorem registry_add_appends (prev : List DeployedContract) (r1 r2 : DeployedContract)
    (haddr : r1.address = r2.address) (hchain : r1.network.chainId = r2.network.chainId) :
    saveDeployedContract (saveDeployedContract prev r1) r2 = prev ++ [r1, r2]
    ∧ keyCount (saveDeployedContract (saveDeployedContract prev r1) r2) r2.address r2.network.chainId
        = keyCount prev r2.address r2.network.chainId + 2 := by
  constructor
  · simp [saveDeployedContract]
  · simp [saveDeployedContract, keyCount, List.filter_append, haddr, hchain]

/-- Witness for registry_add_appends at two concrete records sharing
("0x1234", 1). -/
theorem registry_add_appends_witness :
    saveDeployedContract (saveDeployedContract [] recA) recB = [] ++ [recA, recB]
    ∧ keyCount (saveDeployedContract (saveDeployedContract [] recA) recB) recB.address recB.network.chainId
        = keyCount [] recB.address recB.network.chainId + 2 :=
  registry_add_appends [] recA recB rfl rfl

/-- Counterexample to C7 as stated: removal takes only the address and deletes
the record on chain 8453 along with the one on chain 1 that shares its address. -/
theorem registry_remove_deletes_other_chains :
    recC ∉ removeDeployedContract [recA, recC] "0x1234"
    ∧ removeDeployedContract [recA, recC] "0x1234" = [] := by
  refine ⟨?_, ?_⟩ <;> decide

/-- C7 amended: removal is keyed by address alone — a record survives
removeDeployedContract exactly when it was present and its address differs
from the removed one, regardless of chain id. -/
theorem registry_remove_by_address_only (l : List DeployedContract) (address : String)
    (c : DeployedContract) :
    c ∈ removeDeployedContract l address ↔ c ∈ l ∧ c.address ≠ address := by
  simp [removeDeployedContract, List.mem_filter, bne_iff_ne]

/-! Network-switch claim theorems. -/

/-- C8 amended: switchNetwork fails with the not-supported error when the
chain id has no descriptor; when the provider reports the chain unknown (error
code 4902 or -32603), the manager sends one add-chain request built from the
registry descriptor (RPC URL, explorer URL, currency metadata) and makes no
second switch request — the switch is not retried. -/
theorem switchNetwork_no_retry (env : Env) (provider : ProviderBehavior) (chainId : Nat) :
    (getNetworkByChainId env chainId = none →
      switchNetwork env provider chainId =
        ⟨[], [], .err ("Network with chain ID " ++ toString chainId ++ " is not supported.")⟩)
    ∧ (∀ network e, getNetworkByChainId env chainId = some network →
        provider.switchError = some e → (e.code = 4902 ∨ e.code = -32603) →
        (switchNetwork env provider chainId).addRequests = [mkAddChainParams network]
        ∧ (switchNetwork env provider chainId).switchRequests = [toHexChainId chainId]) := by
  constructor
  · intro h
    simp [switchNetwork, h]
  · intro network e hn he hcode
    rcases hcode with hc | hc <;> cases haddErr : provider.addError <;>
      constructor <;> simp [switchNetwork, hn, he, hc, haddErr]

/-- Witness for switchNetwork_no_retry: the provider reports chain 8453 as
unknown (code 4902); one add request is made and the only switch request is
the original one. -/
theorem switchNetwork_no_retry_witness :
    (switchNetwork envNoKey unknownChainProvider 8453).addRequests = [mkAddChainParams baseFixture]
    ∧ (switchNetwork envNoKey unknownChainProvider 8453).switchRequests = [toHexChainId 8453] :=
  (switchNetwork_no_retry envNoKey unknownChainProvider 8453).2 baseFixture
    ⟨4902, "Unrecognized chain ID"⟩ (by decide) rfl (Or.inl rfl)

/-- Counterexample to C8 as stated: with the provider reporting the chain
unknown, only one switch request is ever sent — there is no retry after the
add-chain request. -/
theorem switchNetwork_unknown_chain_single_request :
    (switchNetwork envNoKey unknownChainProvider 8453).switchRequests.length = 1
    ∧ (switchNetwork envNoKey unknownChainProvider 8453).switchRequests.length ≠ 2
    ∧ (switchNetwork envNoKey unknownChainProvider 8453).addRequests.length = 1 := by
  refine ⟨?_, ?_, ?_⟩ <;> decide

/-! Wallet claim theorems. -/

lemma persistEffect_address (s : WalletState) : (persistEffect s).address = s.address := by
  cases h : s.address with
  | none => simp [persistEffect, h]
  | some a =>
      simp only [persistEffect, h]
      split
      · rfl
      · exact h

lemma persistEffect_isConnected (s : WalletState) :
    (persistEffect s).isConnected = s.isConnected := by
  cases h : s.address with
  | none => simp [persistEffect, h]
  | some a =>
      simp only [persistEffect, h]
      split <;> rfl

lemma step_preserves_inv (s : WalletState) (e : WalletEvent)
    (hg : goodEventB e = true)
    (hs : s.isConnected = true → s.address ≠ none) :
    (persistEffect (walletStep s e)).isConnected = true →
    (persistEffect (walletStep s e)).address ≠ none := by
  rw [persistEffect_isConnected, persistEffect_address]
  cases e with
  | connectOk a c =>
      intro _
      simp [walletStep]
  | connectFail m =>
      intro h
      simp only [walletStep] at h ⊢
      exact hs h
  | disconnect =>
      intro h
      simp [walletStep, disconnectStep] at h
  | accountsChanged accounts =>
      cases accounts with
      | nil =>
          intro h
          simp [walletStep, disconnectStep] at h
      | cons a rest =>
          intro _
          have ha : ¬ a = "" := by simpa [goodEventB] using hg
          simp [walletStep, ha]
  | chainChanged c =>
      intro h
      simp only [walletStep] at h ⊢
      exact hs h

/-- C1 amended: one direction of the invariant holds — after any finite event
sequence in which every accounts-changed event carries a nonempty first
account string, isConnected = true implies address is non-null. The converse
direction fails (see the counterexample): an accounts-changed event while
disconnected sets the address without setting isConnected. -/
theorem connected_implies_address (events : List WalletEvent)
    (hg : ∀ e ∈ events, goodEventB e = true) :
    (runWallet events).isConnected = true → (runWallet events).address ≠ none := by
  have main : ∀ (evs : List WalletEvent) (s : WalletState),
      (∀ e ∈ evs, goodEventB e = true) →
      (s.isConnected = true → s.address ≠ none) →
      ((evs.foldl (fun t e => persistEffect (walletStep t e)) s).isConnected = true →
        (evs.foldl (fun t e => persistEffect (walletStep t e)) s).address ≠ none) := by
    intro evs
    induction evs with
    | nil =>
        intro s _ hs
        simpa using hs
    | cons e es ih =>
        intro s hge hs
        simp only [List.foldl_cons]
        exact ih (persistEffect (walletStep s e))
          (fun x hx => hge x (List.mem_cons_of_mem e hx))
          (step_preserves_inv s e (hge e (List.mem_cons_self e es)) hs)
  exact main events initialWalletState hg (by simp [initialWalletState])

/-- Witness for connected_implies_address: after a successful connect the
address is non-null. -/
theorem connected_implies_address_witness :
    (∀ e ∈ [WalletEvent.connectOk "0xAbC" 1], goodEventB e = true)
    ∧ (runWallet [WalletEvent.connectOk "0xAbC" 1]).address ≠ none :=
  ⟨by decide, connected_implies_address [WalletEvent.connectOk "0xAbC" 1] (by decide) (by decide)⟩

/-- Counterexample to C1 as stated: a single accounts-changed event from the
disconnected initial state sets a non-null address while isConnected stays
false, so the biconditional fails. -/
theorem connection_iff_fails :
    ¬ (((runWallet [WalletEvent.accountsChanged ["0x1111"]]).isConnected = true) ↔
        ((runWallet [WalletEvent.accountsChanged ["0x1111"]]).address ≠ none)) := by
  decide

/-- C9 amended: connect() stores the signer-reported address verbatim — for a
session whose provider reports account string a (nonempty) and chain id c, the
state after connect is exactly {address: a, isConnected: true, chainId: c,
error: null} with wallet_connected="true" and wallet_address=a persisted; no
lowercase normalization is applied anywhere on the path. -/
theorem connect_success_state (a : String) (c : Nat) (ha : a ≠ "") :
    runWallet [WalletEvent.connectOk a c] =
      ⟨some a, true, some c, none, ⟨some "true", some a⟩⟩ := by
  simp [runWallet, walletStep, persistEffect, initialWalletState, ha]

/-- Witness for connect_success_state at the provider-reported account
"0xABC" and chain 1. -/
theorem connect_success_state_witness :
    runWallet [WalletEvent.connectOk "0xABC" 1] =
      ⟨some "0xABC", true, some 1, none, ⟨some "true", some "0xABC"⟩⟩ :=
  connect_success_state "0xABC" 1 (by decide)

/-- Counterexample to C9 as stated: with the provider reporting "0xABC" the
stored address is "0xABC" itself, not the lowercase "0xabc" the claim
requires. -/
theorem connect_does_not_lowercase :
    (runWallet [WalletEvent.connectOk "0xABC" 1]).address = some "0xABC"
    ∧ (runWallet [WalletEvent.connectOk "0xABC" 1]).address ≠ some "0xabc" := by
  refine ⟨?_, ?_⟩ <;> decide

end SolidityIDE
